import Mathlib

/-!
Verification of the Nodalis PLC runtime support library.

The definitions below are a shallow embedding of the C++ sources:
`src/compilers/support/generic/nodalis.h` (address parser, memory
mapping, function blocks) and `test/st/output/imperium.cpp` (typed
accessors, I/O supervisor).  Machine integers are modelled as `Nat`
with explicit reductions modulo powers of two where the C++ code
relies on fixed-width arithmetic.  Fallible C++ functions (those that
throw `std::invalid_argument`) are modelled with `Except String`.
-/

namespace Nodalis

/-- Memory spaces, from `enum MEMORY_SPACE` in nodalis.h: I = 0 (inputs),
Q = 1 (outputs), M = 2 (working memory). -/
inductive MemorySpace
  | I
  | Q
  | M
deriving DecidableEq, Repr

/-- Result of `parseAddress` in nodalis.h: the C++ function returns the
vector `{ispace, width, addr, ibit}` of `int`s, where unresolved fields
keep the sentinel value `-1`. -/
structure ParsedAddress where
  ispace : Int
  width : Int
  addr : Int
  ibit : Int
deriving DecidableEq, Repr

/-- Model of `std::tolower` on the single characters the parser compares. -/
def lc (c : Char) : Char := c.toLower

/-- The space letter class `[IQM]` of the regular expression, case-insensitive. -/
def isSpaceLetter (c : Char) : Bool :=
  lc c = 'i' || lc c = 'q' || lc c = 'm'

/-- The width letter class `[XBWDL]` of the regular expression, case-insensitive. -/
def isTypeLetter (c : Char) : Bool :=
  lc c = 'x' || lc c = 'b' || lc c = 'w' || lc c = 'd' || lc c = 'l'

/-- Space letter to `MEMORY_SPACE` value, mirroring the if-chain in
`parseAddress` (m → 2, q → 1, i → 0, otherwise the sentinel -1). -/
def spaceCode (c : Char) : Int :=
  if lc c = 'm' then 2
  else if lc c = 'q' then 1
  else if lc c = 'i' then 0
  else -1

/-- Width letter to width in bits, mirroring the if-chain in `parseAddress`
of nodalis.h: x → 8, w → 16, d → 32, l → 32; any other letter (in
particular `b`) falls through and leaves the width at the sentinel -1. -/
def widthCode (c : Char) : Int :=
  if lc c = 'x' then 8
  else if lc c = 'w' then 16
  else if lc c = 'd' then 32
  else if lc c = 'l' then 32
  else -1

/-- Value of a digit string, as computed by `std::stoi` on a digits-only
match group. -/
def digitsVal (l : List Char) : Nat :=
  l.foldl (fun acc c => acc * 10 + (c.toNat - ('0').toNat)) 0

/-- `parseAddress` from nodalis.h.  The C++ matches the whole string
against the anchored regular expression
`%([IQM])([XBWDL])(\d+)(?:\.(\d+))?` (case-insensitive) and throws
`std::invalid_argument` (here: `none`) when it does not match. -/
def parseAddress : List Char → Option ParsedAddress
  | '%' :: s :: t :: rest =>
    if isSpaceLetter s && isTypeLetter t then
      let idx := rest.takeWhile Char.isDigit
      let tail := rest.dropWhile Char.isDigit
      if idx = [] then none
      else
        match tail with
        | [] => some ⟨spaceCode s, widthCode t, (digitsVal idx : Nat), -1⟩
        | '.' :: bs =>
          if bs ≠ [] && bs.all Char.isDigit then
            some ⟨spaceCode s, widthCode t, (digitsVal idx : Nat), (digitsVal bs : Nat)⟩
          else none
        | _ => none
    else none
  | _ => none

/-- `getMemoryByte` from nodalis.h, as the (row, column, byte-in-cell)
triple it addresses inside the `uint64_t MEMORY[64][16]` matrix.  The
C++ computes, for nonnegative `addr`:
row `floor((addr*8)/64)` and column 0 or 1 for spaces I and Q, and
row `floor((addr*8)/(64*14))`, column `floor(addr/112) + 2` for space M;
the byte within the eight-byte cell is `addr % 8` in all three cases. -/
def getMemoryByte (space : MemorySpace) (addr : Nat) : Nat × Nat × Nat :=
  match space with
  | MemorySpace.Q => (addr * 8 / 64, 1, addr % 8)
  | MemorySpace.I => (addr * 8 / 64, 0, addr % 8)
  | MemorySpace.M => (addr * 8 / (64 * 14), addr / 112 + 2, addr % 8)

/-- Physical byte index of a (row, column, byte-in-cell) triple in the
row-major layout of `uint64_t MEMORY[64][16]`: the cell `MEMORY[r][c]`
starts at byte `(r*16 + c)*8` from the base of the array.  The in-image
bytes are exactly the indices 0 .. 8191. -/
def physOfLoc (loc : Nat × Nat × Nat) : Nat :=
  (loc.1 * 16 + loc.2.1) * 8 + loc.2.2

/-- The `MEMORY_SPACE` value carried in a parsed address, decoded back to
the enumeration.  All call sites first check the value is not -1, and the
parser only produces 0, 1 or 2. -/
def spaceOfInt (i : Int) : MemorySpace :=
  if i = 0 then MemorySpace.I
  else if i = 1 then MemorySpace.Q
  else MemorySpace.M

/-- C1: for spaces I and Q the code maps byte offset a to row a/8 and
byte a%8 in columns 0 and 1, as the claim states; but for space M the
code computes column `a/112 + 2`, not the claimed `(a/8) % 14 + 2`: at
offset 8 the code addresses column 2 while the claimed formula gives 3. -/
theorem C1_theorem :
    getMemoryByte MemorySpace.I 13 = (1, 0, 5) ∧
    getMemoryByte MemorySpace.Q 13 = (1, 1, 5) ∧
    getMemoryByte MemorySpace.M 8 = (0, 2, 0) ∧
    8 / 8 % 14 + 2 = 3 := by decide

/-- C2: the memory spaces do alias under the code.  The distinct in-range
M offsets 0 and 8 resolve to the same storage byte (row 0, column 2,
byte 0); the in-range M offset 1568 is sent to column 16, outside
columns 2 .. 15 of the matrix; and in the row-major layout of
`MEMORY[64][16]` that out-of-range column makes M offset 1568 the same
physical byte as I offset 120. -/
theorem C2_theorem :
    getMemoryByte MemorySpace.M 0 = getMemoryByte MemorySpace.M 8 ∧
    (getMemoryByte MemorySpace.M 1568).2.1 = 16 ∧
    physOfLoc (getMemoryByte MemorySpace.M 1568) =
      physOfLoc (getMemoryByte MemorySpace.I 120) := by decide

/-- C4: `parseAddress` maps the width letter L to 32, not 64, and leaves
the width of the letter B at the sentinel -1: parsing `%ML7` yields the
tuple (space 2 = M, width 32, index 7, bit -1) and parsing `%IB3` yields
(space 0 = I, width -1, index 3, bit -1). -/
theorem C4_theorem :
    parseAddress (("%ML7").data) = some ⟨2, 32, 7, -1⟩ ∧
    parseAddress (("%IB3").data) = some ⟨0, -1, 3, -1⟩ := by decide

/-- The process image, as the byte contents of the physical memory that
backs `uint64_t MEMORY[64][16]`, indexed by physical byte index.  The
C++ array is zero-initialized; pointer arithmetic that leaves the array
is modelled by indices at or beyond 8192. -/
def Image := Nat → Nat

/-- The zero-initialized image (`uint64_t MEMORY[64][16] = { 0 }`). -/
def zeroImg : Image := fun _ => 0

/-- `getBit(void* var, int bit)` from imperium.cpp evaluated over the
image: it advances `bit / 8` bytes past the given pointer and tests bit
`bit % 8` of that byte. -/
def bitTest (img : Image) (p : Nat) (bit : Nat) : Bool :=
  Nat.testBit (img (p + bit / 8) % 256) (bit % 8)

/-- The byte produced by `setBit` for one byte value: set or clear bit
`k` (with `k = bit % 8 < 8`) of the byte. -/
def setBitByte (b : Nat) (k : Nat) (v : Bool) : Nat :=
  if v then b % 256 ||| 2 ^ k else b % 256 &&& (255 - 2 ^ k)

/-- `setBit(void* var, int bit, value)` from imperium.cpp over the image:
read-modify-write of the byte `bit / 8` past the given pointer. -/
def setBitImg (img : Image) (p : Nat) (bit : Nat) (v : Bool) : Image :=
  fun q => if q = p + bit / 8 then setBitByte (img (p + bit / 8)) (bit % 8) v else img q

/-- `readByte` from imperium.cpp: parse, check width = 8, space, index
and the absence of a bit suffix, then load the byte addressed by
`getMemoryByte`.  There is no range check. -/
def readByteImg (img : Image) (address : String) : Except String Nat :=
  match parseAddress address.data with
  | none => Except.error ("Invalid address format")
  | some pa =>
    if pa.width ≠ 8 then Except.error ("Invalid address type")
    else if pa.ispace = -1 then Except.error ("Invalid address space")
    else if pa.addr = -1 then Except.error ("Invalid address index")
    else if pa.ibit > -1 then Except.error ("Reference specifies a bit")
    else Except.ok (img (physOfLoc (getMemoryByte (spaceOfInt pa.ispace) pa.addr.toNat)) % 256)

/-- `readWord` from imperium.cpp: as `readByte` but width 16, loading
through `getMemoryWord(space, index) = getMemoryByte(space, index*2)`
as a host-native (little-endian) 16-bit load. -/
def readWordImg (img : Image) (address : String) : Except String Nat :=
  match parseAddress address.data with
  | none => Except.error ("Invalid address format")
  | some pa =>
    if pa.width ≠ 16 then Except.error ("Invalid address type")
    else if pa.ispace = -1 then Except.error ("Invalid address space")
    else if pa.addr = -1 then Except.error ("Invalid address index")
    else if pa.ibit > -1 then Except.error ("Reference specifies a bit")
    else
      let p := physOfLoc (getMemoryByte (spaceOfInt pa.ispace) (pa.addr.toNat * 2))
      Except.ok (img p % 256 + 256 * (img (p + 1) % 256))

/-- `readDWord` from imperium.cpp: as `readByte` but width 32, loading
through `getMemoryDWord(space, index) = getMemoryByte(space, index*4)`
as a host-native (little-endian) 32-bit load. -/
def readDWordImg (img : Image) (address : String) : Except String Nat :=
  match parseAddress address.data with
  | none => Except.error ("Invalid address format")
  | some pa =>
    if pa.width ≠ 32 then Except.error ("Invalid address type")
    else if pa.ispace = -1 then Except.error ("Invalid address space")
    else if pa.addr = -1 then Except.error ("Invalid address index")
    else if pa.ibit > -1 then Except.error ("Reference specifies a bit")
    else
      let p := physOfLoc (getMemoryByte (spaceOfInt pa.ispace) (pa.addr.toNat * 4))
      Except.ok (img p % 256 + 256 * (img (p + 1) % 256) +
        65536 * (img (p + 2) % 256) + 16777216 * (img (p + 3) % 256))

/-- `readBit` from imperium.cpp: parse, check space, index, the presence
of a bit suffix and a known width, then dispatch on the width to
`getBit` over the byte, word or dword pointer.  The bit index is not
compared against the width, and the `switch` has no default, so any
other width silently yields `false`. -/
def readBitImg (img : Image) (address : String) : Except String Bool :=
  match parseAddress address.data with
  | none => Except.error ("Invalid address format")
  | some pa =>
    if pa.ispace = -1 then Except.error ("Invalid address space")
    else if pa.addr = -1 then Except.error ("Invalid address index")
    else if pa.ibit = -1 then Except.error ("Invalid address bit")
    else if pa.width = -1 then Except.error ("Invalid address size")
    else
      let sp := spaceOfInt pa.ispace
      let bn := pa.ibit.toNat
      if pa.width = 8 then
        Except.ok (bitTest img (physOfLoc (getMemoryByte sp pa.addr.toNat)) bn)
      else if pa.width = 16 then
        Except.ok (bitTest img (physOfLoc (getMemoryByte sp (pa.addr.toNat * 2))) bn)
      else if pa.width = 32 then
        Except.ok (bitTest img (physOfLoc (getMemoryByte sp (pa.addr.toNat * 4))) bn)
      else Except.ok false

/-- `writeByte` from imperium.cpp: same checks as `readByte`, then a
store through the unchecked byte pointer. -/
def writeByteImg (img : Image) (address : String) (value : Nat) : Except String Image :=
  match parseAddress address.data with
  | none => Except.error ("Invalid address format")
  | some pa =>
    if pa.width ≠ 8 then Except.error ("Invalid address type")
    else if pa.ispace = -1 then Except.error ("Invalid address space")
    else if pa.addr = -1 then Except.error ("Invalid address index")
    else if pa.ibit > -1 then Except.error ("Reference specifies a bit")
    else
      let p := physOfLoc (getMemoryByte (spaceOfInt pa.ispace) pa.addr.toNat)
      Except.ok (fun q => if q = p then value % 256 else img q)

/-- `writeWord` from imperium.cpp: checks as `readWord`, then a 16-bit
host-native store at the word pointer. -/
def writeWordImg (img : Image) (address : String) (value : Nat) : Except String Image :=
  match parseAddress address.data with
  | none => Except.error ("Invalid address format")
  | some pa =>
    if pa.width ≠ 16 then Except.error ("Invalid address type")
    else if pa.ispace = -1 then Except.error ("Invalid address space")
    else if pa.addr = -1 then Except.error ("Invalid address index")
    else if pa.ibit > -1 then Except.error ("Reference specifies a bit")
    else
      let p := physOfLoc (getMemoryByte (spaceOfInt pa.ispace) (pa.addr.toNat * 2))
      Except.ok (fun q =>
        if q = p then value % 256
        else if q = p + 1 then value / 256 % 256
        else img q)

/-- `writeDWord` from imperium.cpp: checks as `readDWord`, then a 32-bit
host-native store at the dword pointer. -/
def writeDWordImg (img : Image) (address : String) (value : Nat) : Except String Image :=
  match parseAddress address.data with
  | none => Except.error ("Invalid address format")
  | some pa =>
    if pa.width ≠ 32 then Except.error ("Invalid address type")
    else if pa.ispace = -1 then Except.error ("Invalid address space")
    else if pa.addr = -1 then Except.error ("Invalid address index")
    else if pa.ibit > -1 then Except.error ("Reference specifies a bit")
    else
      let p := physOfLoc (getMemoryByte (spaceOfInt pa.ispace) (pa.addr.toNat * 4))
      Except.ok (fun q =>
        if q = p then value % 256
        else if q = p + 1 then value / 256 % 256
        else if q = p + 2 then value / 65536 % 256
        else if q = p + 3 then value / 16777216 % 256
        else img q)

/-- `writeBit` from imperium.cpp: checks as `readBit`, then a dispatch on
the width to `setBit` over the byte, word or dword pointer; the bit
index is again not compared against the width, and an unknown width is
a silent no-op. -/
def writeBitImg (img : Image) (address : String) (value : Bool) : Except String Image :=
  match parseAddress address.data with
  | none => Except.error ("Invalid address format")
  | some pa =>
    if pa.ispace = -1 then Except.error ("Invalid address space")
    else if pa.addr = -1 then Except.error ("Invalid address index")
    else if pa.ibit = -1 then Except.error ("Invalid address bit")
    else if pa.width = -1 then Except.error ("Invalid address size")
    else
      let sp := spaceOfInt pa.ispace
      let bn := pa.ibit.toNat
      if pa.width = 8 then
        Except.ok (setBitImg img (physOfLoc (getMemoryByte sp pa.addr.toNat)) bn value)
      else if pa.width = 16 then
        Except.ok (setBitImg img (physOfLoc (getMemoryByte sp (pa.addr.toNat * 2))) bn value)
      else if pa.width = 32 then
        Except.ok (setBitImg img (physOfLoc (getMemoryByte sp (pa.addr.toNat * 4))) bn value)
      else Except.ok img

/-- An image holding 2 in the byte at physical index 1 (byte 1 of the
Input strip of row 0, i.e. input byte offset 1, with bit 1 set) and 0
everywhere else. -/
def imgByteOneBitOne : Image := fun p => if p = 1 then 2 else 0

/-- C3: the accessors perform no range check.  Byte offset 512 of space
I is one past the end of the 512-byte input space, yet `readByte` on
`%IX512` succeeds (returning the byte at row 64, column 0 — past the
64 rows of the matrix, physical byte 8192, outside the 8192-byte
image), and `writeByte` on the same address succeeds and deposits the
value at that out-of-image physical byte instead of failing. -/
theorem C3_theorem :
    readByteImg zeroImg ("%IX512") = Except.ok 0 ∧
    getMemoryByte MemorySpace.I 512 = (64, 0, 0) ∧
    physOfLoc (getMemoryByte MemorySpace.I 512) = 8192 ∧
    Except.map (fun f => f 8192) (writeByteImg zeroImg ("%IX512") 7) = Except.ok 7 := by
  exact ⟨rfl, rfl, rfl, rfl⟩

/-- C7: neither the parser nor the bit accessors validate `bit < width`.
`%IX0.9` parses to (space I, width 8, index 0, bit 9); `readBit` on it
succeeds and — because `getBit` advances `bit / 8` bytes — actually
reads bit 1 of the NEXT byte (input byte offset 1, physical byte 1),
outside the addressed element (input byte 0, physical byte 0); and
`writeBit` on it succeeds and modifies physical byte 1, leaving the
addressed byte 0 untouched. -/
theorem C7_theorem :
    parseAddress (("%IX0.9").data) = some ⟨0, 8, 0, 9⟩ ∧
    readBitImg imgByteOneBitOne ("%IX0.9") = Except.ok true ∧
    Except.map (fun f => (f 0, f 1)) (writeBitImg zeroImg ("%IX0.9") true) =
      Except.ok (0, 2) := by
  exact ⟨rfl, rfl, rfl⟩

/-- Subtraction of `uint64_t` clock values as performed by
`elapsed() - startTime` and `elapsed() - map.lastPoll`: wrapping
subtraction modulo 2^64.  For `b ≤ a < 2^64` this equals `a - b`. -/
def sub64 (a b : Nat) : Nat := (a + 2 ^ 64 - b) % 2 ^ 64

/-- State of the `TP` pulse block of nodalis.h: the public pins Q, IN,
PT, ET and the private members lastIN and startTime. -/
structure TPState where
  Q : Bool
  IN : Bool
  PT : Nat
  ET : Nat
  lastIN : Bool
  startTime : Nat
deriving DecidableEq, Repr

/-- One evaluation of `TP::operator()` from nodalis.h, with `now` the
value returned by `elapsed()` during this scan.  Q is first cleared; a
rising edge records lastIN and clears ET and startTime; while IN is
high Q is set (and ET is left alone); after IN falls, startTime is
latched on the first falling scan, ET becomes `now - startTime`, and Q
stays set while `PT >= ET`, after which lastIN is cleared. -/
def TPstep (now : Nat) (s0 : TPState) : TPState :=
  let s1 : TPState := { s0 with Q := false }
  let s2 : TPState :=
    if !s1.lastIN && s1.IN then { s1 with lastIN := s1.IN, ET := 0, startTime := 0 } else s1
  if s2.IN then { s2 with Q := true }
  else if s2.lastIN && !s2.IN then
    let s3 : TPState := if s2.startTime = 0 then { s2 with startTime := now } else s2
    let s4 : TPState := { s3 with ET := sub64 now s3.startTime }
    if s4.PT ≥ s4.ET then { s4 with Q := true } else { s4 with lastIN := false }
  else s2

/-- One evaluation of the `TP::operator()` variant in
test/st/output/imperium.h.  It is identical to the nodalis.h variant
except that the final comparison is `PT <= ET` (Q asserted only once
the pulse time has elapsed) and lastIN is never cleared. -/
def TPstepOut (now : Nat) (s0 : TPState) : TPState :=
  let s1 : TPState := { s0 with Q := false }
  let s2 : TPState :=
    if !s1.lastIN && s1.IN then { s1 with lastIN := s1.IN, ET := 0, startTime := 0 } else s1
  if s2.IN then { s2 with Q := true }
  else if s2.lastIN && !s2.IN then
    let s3 : TPState := if s2.startTime = 0 then { s2 with startTime := now } else s2
    let s4 : TPState := { s3 with ET := sub64 now s3.startTime }
    if s4.PT ≤ s4.ET then { s4 with Q := true } else s4
  else s2

/-- A scan of the pulse block: the generated program assigns the IN pin,
then invokes `operator()` at clock value `now`. -/
def TPscan (s : TPState) (p : Nat × Bool) : TPState :=
  TPstep p.1 { s with IN := p.2 }

/-- A scan of the output-tree pulse block variant. -/
def TPscanOut (s : TPState) (p : Nat × Bool) : TPState :=
  TPstepOut p.1 { s with IN := p.2 }

/-- A sequence of scans of the pulse block, each a (clock, IN) pair. -/
def TPrun (s : TPState) (scans : List (Nat × Bool)) : TPState :=
  scans.foldl TPscan s

/-- A sequence of scans of the output-tree pulse block variant. -/
def TPrunOut (s : TPState) (scans : List (Nat × Bool)) : TPState :=
  scans.foldl TPscanOut s

/-- A freshly constructed pulse block with preset time pt: lastIN and
startTime carry their member initializers; the public pins start from
the zero state the first scan establishes anyway. -/
def TPinit (pt : Nat) : TPState :=
  { Q := false, IN := false, PT := pt, ET := 0, lastIN := false, startTime := 0 }

/-- C5: both TP variants time the pulse from the FALLING edge of IN, not
the rising edge.  With PT = 1000, IN rising at t = 0 and falling at
t = 500: the nodalis.h variant still has Q = true at the scan at
t = 1200 (the claim requires false from t = 1000 on) with ET = 700
(the claim requires ET = min(now - t0, PT) = 1000), and at t = 300 it
reports ET = 0 instead of 300; the output-tree variant has Q = false
already at the scan at t = 500 (inside the claimed pulse window
[0, 1000)) and Q = true at t = 1500, after the claimed window. -/
theorem C5_theorem :
    (TPrun (TPinit 1000) [(0, true), (500, false), (1200, false)]).Q = true ∧
    (TPrun (TPinit 1000) [(0, true), (500, false), (1200, false)]).ET = 700 ∧
    (TPrun (TPinit 1000) [(0, true), (300, true)]).ET = 0 ∧
    (TPrunOut (TPinit 1000) [(0, true), (500, false)]).Q = false ∧
    (TPrunOut (TPinit 1000) [(0, true), (500, false), (1500, false)]).Q = true := by
  decide

/-- Direction of an I/O mapping, from `enum class IOType` in nodalis.h. -/
inductive IODirection
  | Input
  | Output
deriving DecidableEq, Repr

/-- The fields of `class IOMap` that the supervisor reads, with times in
milliseconds as returned by `elapsed()`. -/
structure IOMapState where
  direction : IODirection
  remoteAddress : String
  localAddress : String
  bit : Int
  width : Nat
  interval : Nat
  lastPoll : Nat
deriving DecidableEq, Repr

/-- Substring test `s.find("%Q") != npos` used by the `IOMap`
constructor to derive the mapping direction. -/
def containsPctQ : List Char → Bool
  | '%' :: 'Q' :: _ => true
  | _ :: rest => containsPctQ rest
  | [] => false

/-- The `IOMap(std::string mapJson)` constructor of imperium.cpp, given
the already-decoded JSON fields: direction is Output exactly when the
local address contains "%Q", the bit field keeps its initializer -1,
and lastPoll is set to `elapsed()` at construction time (regTime). -/
def mkIOMap (localAddress remoteAddress : String) (width interval regTime : Nat) :
    IOMapState :=
  { direction := if containsPctQ localAddress.data then IODirection.Output
                 else IODirection.Input
    remoteAddress := remoteAddress
    localAddress := localAddress
    bit := -1
    width := width
    interval := interval
    lastPoll := regTime }

/-- The visit `IOClient::poll` pays to one mapping of a connected client
during one supervisor scan, from imperium.cpp (test/st/output tree).
`now` is the `elapsed()` value during the visit, `img` the process
image and `rr` the result of the protocol adapter read of a given
width at a given remote address (`none` when the adapter returns
false).  The result is the updated mapping, the updated image, and the
list of (width, remote address, value) writes pushed to the adapter.
The mapping is skipped unless `elapsed() - lastPoll > interval`
(strict, in wrapping uint64 arithmetic); for a visited mapping
lastPoll is set to `now` first, then the transfer dispatches on the
width: 1, 8, 16 and 32 are bridged through the bit, byte, word and
dword accessors, any other width falls out of both `switch`
statements; exceptions thrown by the local accessors are caught by the
enclosing try block after lastPoll was already advanced. -/
def pollVisit (now : Nat) (img : Image) (rr : Nat → String → Option Nat)
    (m : IOMapState) : IOMapState × Image × List (Nat × String × Nat) :=
  if sub64 now m.lastPoll > m.interval then
    let m' : IOMapState := { m with lastPoll := now }
    match m.direction with
    | IODirection.Output =>
      if m.width = 1 then
        match readBitImg img m.localAddress with
        | Except.ok b => (m', img, [(1, m.remoteAddress, if b then 1 else 0)])
        | Except.error _ => (m', img, [])
      else if m.width = 8 then
        match readByteImg img m.localAddress with
        | Except.ok v => (m', img, [(8, m.remoteAddress, v)])
        | Except.error _ => (m', img, [])
      else if m.width = 16 then
        match readWordImg img m.localAddress with
        | Except.ok v => (m', img, [(16, m.remoteAddress, v)])
        | Except.error _ => (m', img, [])
      else if m.width = 32 then
        match readDWordImg img m.localAddress with
        | Except.ok v => (m', img, [(32, m.remoteAddress, v)])
        | Except.error _ => (m', img, [])
      else (m', img, [])
    | IODirection.Input =>
      if m.width = 1 then
        match rr 1 m.remoteAddress with
        | some v =>
          match writeBitImg img m.localAddress (decide (0 < v)) with
          | Except.ok img' => (m', img', [])
          | Except.error _ => (m', img, [])
        | none => (m', img, [])
      else if m.width = 8 then
        match rr 8 m.remoteAddress with
        | some v =>
          match writeByteImg img m.localAddress v with
          | Except.ok img' => (m', img', [])
          | Except.error _ => (m', img, [])
        | none => (m', img, [])
      else if m.width = 16 then
        match rr 16 m.remoteAddress with
        | some v =>
          match writeWordImg img m.localAddress v with
          | Except.ok img' => (m', img', [])
          | Except.error _ => (m', img, [])
        | none => (m', img, [])
      else if m.width = 32 then
        match rr 32 m.remoteAddress with
        | some v =>
          match writeDWordImg img m.localAddress v with
          | Except.ok img' => (m', img', [])
          | Except.error _ => (m', img, [])
        | none => (m', img, [])
      else (m', img, [])
  else (m, img, [])

/-- The fields of `class IOClient` that the supervisor reads. -/
structure IOClientState where
  connected : Bool
  lastAttempt : Nat
  mappings : List IOMapState
deriving Repr

/-- The `IOClient(protocol)` constructor of imperium.cpp: a fresh client
starts disconnected, with the member initializer `lastAttempt = 0` and
no mappings. -/
def mkIOClientState : IOClientState :=
  { connected := false, lastAttempt := 0, mappings := [] }

/-- `IOClient::poll` from imperium.cpp: a connected client visits each
of its mappings in order (threading the image through the visits); a
disconnected client performs no transfer at all, and invokes
`connect()` (whose outcome is the `connectResult` argument) only when
`elapsed() - lastAttempt >= 15000`. -/
def clientPoll (now : Nat) (img : Image) (rr : Nat → String → Option Nat)
    (connectResult : Bool) (c : IOClientState) :
    IOClientState × Image × List (Nat × String × Nat) :=
  if c.connected then
    let step := fun (acc : List IOMapState × Image × List (Nat × String × Nat))
        (m : IOMapState) =>
      let (done, img1, ws) := acc
      let (m', img2, ws') := pollVisit now img1 rr m
      (done ++ [m'], img2, ws ++ ws')
    let (ms, img', ws) := c.mappings.foldl step ([], img, [])
    ({ c with mappings := ms }, img', ws)
  else if sub64 now c.lastAttempt ≥ 15000 then
    ({ c with connected := connectResult, lastAttempt := now }, img, [])
  else (c, img, [])

/-- A mapping whose elapsed time since lastPoll is at most its interval
is skipped entirely by the visit: the strict comparison in
`IOClient::poll` fails and nothing is touched. -/
theorem pollVisit_skipped (now : Nat) (img : Image) (rr : Nat → String → Option Nat)
    (m : IOMapState) (h : sub64 now m.lastPoll ≤ m.interval) :
    pollVisit now img rr m = (m, img, []) := by
  unfold pollVisit
  rw [if_neg (not_lt.mpr h)]

/-- A due mapping always comes out of the visit with lastPoll set to the
current time, whatever the direction, width and transfer outcome. -/
theorem pollVisit_lastPoll (now : Nat) (img : Image) (rr : Nat → String → Option Nat)
    (m : IOMapState) (h : sub64 now m.lastPoll > m.interval) :
    (pollVisit now img rr m).1.lastPoll = now := by
  unfold pollVisit
  rw [if_pos h]
  cases hd : m.direction <;> (repeat' split) <;> rfl

/-- A disconnected client never transfers: its poll leaves the image as
it was and pushes nothing to the remote. -/
theorem clientPoll_disconnected (now : Nat) (img : Image)
    (rr : Nat → String → Option Nat) (cr : Bool) (c : IOClientState)
    (h : c.connected = false) :
    (clientPoll now img rr cr c).2.1 = img ∧ (clientPoll now img rr cr c).2.2 = [] := by
  unfold clientPoll
  rw [h]
  simp only [Bool.false_eq_true, if_false]
  split <;> exact ⟨rfl, rfl⟩

/-- A due width-64 Input mapping for the counterexamples and witnesses. -/
def mC6in : IOMapState :=
  { direction := IODirection.Input
    remoteAddress := "node64"
    localAddress := "%MD0"
    bit := -1
    width := 64
    interval := 500
    lastPoll := 0 }

/-- A due width-64 Output mapping. -/
def mC6out : IOMapState :=
  { mC6in with direction := IODirection.Output, localAddress := "%QX0" }

/-- C6 counterexample: both switches in `IOClient::poll` lack a case for
width 64.  At time 1000 this width-64 Input mapping is due and the
adapter offers the value 42, yet the visit leaves the image untouched
and copies nothing; the corresponding Output mapping pushes nothing to
the remote.  Only lastPoll advances. -/
theorem C6_counterexample :
    pollVisit 1000 zeroImg (fun _ _ => some 42) mC6in =
      ({ mC6in with lastPoll := 1000 }, zeroImg, []) ∧
    pollVisit 1000 zeroImg (fun _ _ => some 42) mC6out =
      ({ mC6out with lastPoll := 1000 }, zeroImg, []) := ⟨rfl, rfl⟩

/-- C6 (amended): the transfer dispatch of `IOClient::poll` covers the
widths 1, 8, 16 and 32 only; a due mapping of width 64 (either
direction) performs no transfer at all — the image and the remote are
untouched and only its lastPoll advances. -/
theorem C6_theorem (now : Nat) (img : Image) (rr : Nat → String → Option Nat)
    (m : IOMapState) (hdue : sub64 now m.lastPoll > m.interval)
    (h64 : m.width = 64) :
    pollVisit now img rr m = ({ m with lastPoll := now }, img, []) := by
  unfold pollVisit
  rw [if_pos hdue, h64]
  cases hd : m.direction <;> rfl

/-- C6 witness: the amended statement applied to a concrete due
width-64 mapping. -/
theorem C6_witness :
    pollVisit 1000 zeroImg (fun _ _ => none) mC6in =
      ({ mC6in with lastPoll := 1000 }, zeroImg, []) :=
  C6_theorem 1000 zeroImg (fun _ _ => none) mC6in (by decide) rfl

/-- C8: for a due Input mapping whose adapter read fails, the visit
leaves the process image exactly as it was (no local write, no remote
write) while still advancing lastPoll to the current time; and for a
due mapping with ANY adapter outcome, lastPoll is advanced to the
current time. -/
theorem C8_theorem (now : Nat) (img : Image)
    (rr rr2 : Nat → String → Option Nat) (m : IOMapState)
    (hdue : sub64 now m.lastPoll > m.interval)
    (hdir : m.direction = IODirection.Input)
    (hfail : ∀ w, rr w m.remoteAddress = none) :
    pollVisit now img rr m = ({ m with lastPoll := now }, img, []) ∧
    (pollVisit now img rr2 m).1.lastPoll = now := by
  constructor
  · unfold pollVisit
    rw [if_pos hdue, hdir]
    dsimp only
    by_cases h1 : m.width = 1
    · rw [if_pos h1, hfail 1]
    · rw [if_neg h1]
      by_cases h8 : m.width = 8
      · rw [if_pos h8, hfail 8]
      · rw [if_neg h8]
        by_cases h16 : m.width = 16
        · rw [if_pos h16, hfail 16]
        · rw [if_neg h16]
          by_cases h32 : m.width = 32
          · rw [if_pos h32, hfail 32]
          · rw [if_neg h32]
  · exact pollVisit_lastPoll now img rr2 m hdue

/-- A due width-8 Input mapping used for the C8 witness. -/
def mC8 : IOMapState :=
  { direction := IODirection.Input
    remoteAddress := "40002"
    localAddress := "%IX1"
    bit := -1
    width := 8
    interval := 500
    lastPoll := 0 }

/-- C8 witness: the theorem applied at time 1000 to a due mapping, with
a failing adapter for the first part and a succeeding one for the
lastPoll part. -/
theorem C8_witness :
    pollVisit 1000 zeroImg (fun _ _ => none) mC8 =
      ({ mC8 with lastPoll := 1000 }, zeroImg, []) ∧
    (pollVisit 1000 zeroImg (fun _ _ => some 9) mC8).1.lastPoll = 1000 :=
  C8_theorem 1000 zeroImg (fun _ _ => none) (fun _ _ => some 9) mC8
    (by decide) rfl (fun _ => rfl)

/-- A width-8 Input mapping with lastPoll 0 and interval 500, used for
the C9 counterexample and witness. -/
def mC9 : IOMapState :=
  { direction := IODirection.Input
    remoteAddress := "40001"
    localAddress := "%IX0"
    bit := -1
    width := 8
    interval := 500
    lastPoll := 0 }

/-- C9 counterexample: at time 500 this mapping is exactly
pollInterval = 500 ms old, so `(now - lastPoll) >= pollInterval` holds,
yet the visit does not poll it: the strict comparison
`elapsed() - lastPoll > interval` fails and the mapping, the image and
the remote are all untouched (even though the adapter has a value). -/
theorem C9_counterexample :
    sub64 500 mC9.lastPoll ≥ mC9.interval ∧
    pollVisit 500 zeroImg (fun _ _ => some 5) mC9 = (mC9, zeroImg, []) :=
  ⟨by decide, rfl⟩

/-- C9 (amended): a connected client transfers a due mapping exactly
when `(now - lastPoll) > pollInterval` (strictly): when the elapsed
time is at most the interval the visit is a complete no-op, and when
it is strictly greater the mapping is polled (its lastPoll is set to
now). -/
theorem C9_theorem (now : Nat) (img : Image) (rr : Nat → String → Option Nat)
    (m : IOMapState) :
    (sub64 now m.lastPoll ≤ m.interval → pollVisit now img rr m = (m, img, [])) ∧
    (sub64 now m.lastPoll > m.interval → (pollVisit now img rr m).1.lastPoll = now) :=
  ⟨fun h => pollVisit_skipped now img rr m h,
   fun h => pollVisit_lastPoll now img rr m h⟩

/-- C9 witness: the amended statement applied at times 500 (exactly one
interval old: skipped) and 501 (strictly more: polled). -/
theorem C9_witness :
    pollVisit 500 zeroImg (fun _ _ => none) mC9 = (mC9, zeroImg, []) ∧
    (pollVisit 501 zeroImg (fun _ _ => none) mC9).1.lastPoll = 501 :=
  ⟨(C9_theorem 500 zeroImg (fun _ _ => none) mC9).1 (by decide),
   (C9_theorem 501 zeroImg (fun _ _ => none) mC9).2 (by decide)⟩

/-- C10: a mapping built by the `IOMap` JSON constructor has lastPoll
initialized to the construction (registration) time; a visit at any
scan within pollInterval milliseconds of registration performs no
transfer (so the first transfer can only happen strictly later than
registration + pollInterval); and a freshly constructed client starts
disconnected, so a poll of it — in particular the first supervised
scan after it is created — never touches the image or the remote. -/
theorem C10_theorem (lA rA : String) (w intv regTime now : Nat) (img : Image)
    (rr : Nat → String → Option Nat) (c : IOClientState) (cr : Bool)
    (hscan : sub64 now regTime ≤ intv) (hdisc : c.connected = false) :
    (mkIOMap lA rA w intv regTime).lastPoll = regTime ∧
    pollVisit now img rr (mkIOMap lA rA w intv regTime) =
      (mkIOMap lA rA w intv regTime, img, []) ∧
    mkIOClientState.connected = false ∧
    (clientPoll now img rr cr c).2.1 = img ∧
    (clientPoll now img rr cr c).2.2 = [] := by
  refine ⟨rfl, ?_, rfl, ?_, ?_⟩
  · exact pollVisit_skipped now img rr (mkIOMap lA rA w intv regTime) hscan
  · exact (clientPoll_disconnected now img rr cr c hdisc).1
  · exact (clientPoll_disconnected now img rr cr c hdisc).2

/-- C10 witness: registration at time 100 with a 500 ms interval; the
scan at time 600 (exactly one interval later) does not transfer, and
the fresh disconnected client transfers nothing. -/
theorem C10_witness :
    (mkIOMap ("%IW3") ("40003") 16 500 100).lastPoll = 100 ∧
    pollVisit 600 zeroImg (fun _ _ => none) (mkIOMap ("%IW3") ("40003") 16 500 100) =
      (mkIOMap ("%IW3") ("40003") 16 500 100, zeroImg, []) ∧
    mkIOClientState.connected = false ∧
    (clientPoll 600 zeroImg (fun _ _ => none) true mkIOClientState).2.1 = zeroImg ∧
    (clientPoll 600 zeroImg (fun _ _ => none) true mkIOClientState).2.2 = [] :=
  C10_theorem ("%IW3") ("40003") 16 500 100 600 zeroImg (fun _ _ => none)
    mkIOClientState true (by decide) rfl

end Nodalis
